import Mathlib

/-!
SUSAN `gpu.h`: launch geometry, device validation and resource lifecycles.

A shallow embedding of `src/gpu.h` (namespace `GPU`).

* C++ `int` is a 32-bit two's-complement integer.  A value of type `int` is a
  Lean `Int`; every arithmetic result is brought back into range with
  `wrap_int`.  `unsigned int` / `uint32` values are Lean `Nat`; a conversion
  from `int` goes through `to_uint`.
* `/` on `int` truncates toward zero (`Int.tdiv`).
* `SUSAN_CUDA_THREADS` and `SUSAN_CUDA_WARP` are macros of `datatypes.h`; the
  functions that use them take them as parameters.
-/

namespace GPU

/-! ## Machine integers -/

/-- Wrap-around of a mathematical integer into the range of a 32-bit `int`. -/
def wrap_int (v : Int) : Int := (v + 2147483648) % 4294967296 - 2147483648

/-- Conversion of an `int` to `unsigned int` (reduction modulo `2^32`). -/
def to_uint (v : Int) : Nat := (v % 4294967296).toNat

/-- Conversion of an `unsigned int` to `int`. -/
def of_uint (u : Nat) : Int := wrap_int (u : Int)

/-- The values an `int` can hold. -/
def is_int (v : Int) : Prop := -2147483648 ≤ v ∧ v ≤ 2147483647

instance (v : Int) : Decidable (is_int v) := by
  unfold is_int
  exact inferInstance

/-- The CUDA `dim3` triple of `unsigned int`. -/
structure dim3 where
  x : Nat
  y : Nat
  z : Nat
  deriving DecidableEq, Repr

/-- Constructor `dim3(vx, vy, vz)` called with `int` arguments. -/
def dim3.of_ints (vx vy vz : Int) : dim3 := ⟨to_uint vx, to_uint vy, to_uint vz⟩

/-! ## GridSizing (`gpu.h` lines 38-62) -/

/-- Source: `return (num + den - 1) / den;` on `int`. -/
def div_round_up (num den : Int) : Int :=
  wrap_int (Int.tdiv (wrap_int (wrap_int (num + den) - 1)) den)

/-- Source: `dim3 rslt(SUSAN_CUDA_WARP, div_round_up(SUSAN_CUDA_THREADS,SUSAN_CUDA_WARP), 1)`. -/
def get_block_size_2D (SUSAN_CUDA_THREADS SUSAN_CUDA_WARP : Int) : dim3 :=
  dim3.of_ints SUSAN_CUDA_WARP (div_round_up SUSAN_CUDA_THREADS SUSAN_CUDA_WARP) 1

/-- Source: `int den = SUSAN_CUDA_THREADS / z;` then
`dim3 rslt(SUSAN_CUDA_WARP, div_round_up(den,SUSAN_CUDA_WARP), z)`. -/
def get_block_size_3D (SUSAN_CUDA_THREADS SUSAN_CUDA_WARP : Int) (z : Int) : dim3 :=
  let den := wrap_int (Int.tdiv SUSAN_CUDA_THREADS z)
  dim3.of_ints SUSAN_CUDA_WARP (div_round_up den SUSAN_CUDA_WARP) z

/-- Source: `int den = th / z; dim3 rslt(ws, div_round_up(den,ws), z)`. -/
def calc_block_size (th ws z : Int) : dim3 :=
  let den := wrap_int (Int.tdiv th z)
  dim3.of_ints ws (div_round_up den ws) z

/-- Source: `dim3 rslt(div_round_up(X,block_size.x), div_round_up(Y,block_size.y),
div_round_up(Z,block_size.z))`; each `unsigned` block extent is converted to the
`int` parameter `den`. -/
def calc_grid_size (block_size : dim3) (X Y Z : Int) : dim3 :=
  dim3.of_ints (div_round_up X (of_uint block_size.x))
               (div_round_up Y (of_uint block_size.y))
               (div_round_up Z (of_uint block_size.z))

/-! ## Process and platform state

The CUDA runtime is not part of the repository.  It is represented by the set of
live platform resources, the trace of runtime calls issued so far, and the lines
written to `stderr`.  Whatever the runtime decides (an error code, a device
count, the handle it hands out) is an explicit argument of the embedded
function that makes the call. -/

/-- Result code of a runtime call: `cudaSuccess` or any other code. -/
inductive cudaError_t
  | cudaSuccess
  | cudaError (code : Nat)
  deriving DecidableEq, Repr

/-- Argument of one `fprintf(stderr, ...)` call: a number, or the text the
runtime gives for an error code (`cudaGetErrorString(err)`). -/
inductive Arg
  | num (v : Nat)
  | errstr (e : cudaError_t)
  deriving DecidableEq, Repr

/-- One `fprintf(stderr, format, args...)` call: the format string and the values
passed after it. -/
structure Msg where
  format : String
  args : List Arg
  deriving DecidableEq, Repr

/-- Enum `cudaTextureAddressMode`, in the order of its numeric values 0..3. -/
inductive cudaTextureAddressMode
  | cudaAddressModeWrap
  | cudaAddressModeClamp
  | cudaAddressModeMirror
  | cudaAddressModeBorder
  deriving DecidableEq, Repr

/-- Enum `cudaTextureFilterMode`, numeric values 0 and 1. -/
inductive cudaTextureFilterMode
  | cudaFilterModePoint
  | cudaFilterModeLinear
  deriving DecidableEq, Repr

/-- Enum `cudaTextureReadMode`, numeric values 0 and 1. -/
inductive cudaTextureReadMode
  | cudaReadModeElementType
  | cudaReadModeNormalizedFloat
  deriving DecidableEq, Repr

/-- The fields of `struct cudaTextureDesc` that `gpu.h` writes.  `addressMode` is
the three-entry array `addressMode[3]`. -/
structure cudaTextureDesc where
  addressMode : List cudaTextureAddressMode
  filterMode : cudaTextureFilterMode
  readMode : cudaTextureReadMode
  normalizedCoords : Int
  deriving DecidableEq, Repr

/-- Value left by `memset(&tex_desc, 0, sizeof(tex_desc))`: every enum field at
its numeric value 0. -/
def cudaTextureDesc.zeroed : cudaTextureDesc :=
  { addressMode := [.cudaAddressModeWrap, .cudaAddressModeWrap, .cudaAddressModeWrap]
    filterMode := .cudaFilterModePoint
    readMode := .cudaReadModeElementType
    normalizedCoords := 0 }

/-- Kinds of platform resource handled by `gpu.h`. -/
inductive Pool
  | device
  | host
  | array
  | texture
  | surface
  | stream
  deriving DecidableEq, Repr

/-- Runtime calls that acquire or release a resource. -/
inductive Call
  | cudaMalloc (bytes : Nat)
  | cudaFree (p : Nat)
  | cudaMallocHost (bytes : Nat)
  | cudaFreeHost (p : Nat)
  | cudaMalloc3DArray (x y z : Nat) (layered : Bool)
  | cudaFreeArray (a : Nat)
  | cudaCreateTextureObject (arr : Nat) (desc : cudaTextureDesc)
  | cudaDestroyTextureObject (t : Nat)
  | cudaCreateSurfaceObject (arr : Nat)
  | cudaDestroySurfaceObject (s : Nat)
  | cudaStreamCreateWithFlags
  | cudaStreamDestroy (s : Nat)
  deriving DecidableEq, Repr

/-- Modelled from the spec: the platform allocator (CUDA runtime, outside the
repository) as a set of live blocks per resource kind, together with the trace of
runtime calls and the `stderr` stream of the process. -/
structure Machine where
  live : List (Pool × Nat)
  calls : List Call
  stderr : List Msg
  deriving DecidableEq, Repr

/-- A function of `gpu.h` either returns, or ends the process with `exit(status)`. -/
inductive Outcome (α : Type)
  | ret (value : α) (m : Machine)
  | exit (status : Int) (m : Machine)
  deriving DecidableEq, Repr

/-- Value returned, if the function returned. -/
def Outcome.value {α : Type} : Outcome α → Option α
  | .ret v _ => some v
  | .exit _ _ => none

/-- Effect of `fprintf(stderr, format, args...)`. -/
def fprintf (m : Machine) (format : String) (args : List Arg) : Machine :=
  { m with stderr := m.stderr ++ [⟨format, args⟩] }

/-- Modelled from the spec: a runtime call that acquires a resource of kind `pool`.
`reply` is the runtime's decision: `none` is a failure, `some h` hands out the
handle `h`.  A runtime never hands out the null handle or a handle that is still
live, so such a reply counts as a failure.  On success the handle becomes live. -/
def acquire (m : Machine) (pool : Pool) (c : Call) (reply : Option Nat) :
    cudaError_t × Nat × Machine :=
  let m1 := { m with calls := m.calls ++ [c] }
  match reply with
  | none => (.cudaError 2, 0, m1)
  | some h =>
    if h = 0 ∨ (pool, h) ∈ m.live then (.cudaError 2, 0, m1)
    else (.cudaSuccess, h, { m1 with live := (pool, h) :: m1.live })

/-- Modelled from the spec: a runtime call that releases the resource `h` of kind
`pool`: the handle stops being live. -/
def release (m : Machine) (pool : Pool) (c : Call) (h : Nat) : Machine :=
  { m with calls := m.calls ++ [c], live := m.live.filter (fun r => r ≠ (pool, h)) }

/-! ## DeviceCapability (`gpu.h` lines 64-124) -/

/-- Source: `count_devices`.  `err` and `devices` are what `cudaGetDeviceCount`
returns and writes. -/
def count_devices (m : Machine) (err : cudaError_t) (devices : Int) : Outcome Int :=
  if err ≠ .cudaSuccess then
    let m1 := fprintf m "Error counting CUDA devices." []
    let m2 := fprintf m1 "GPU error: %s.\n" [.errstr err]
    .exit 1 m2
  else
    .ret devices m

/-- Body of the loop of `check_gpu_id_list` for one entry `p_gpu[i]`.  In
`p_gpu[i] >= available_gpus` the `int` is converted to `unsigned`. -/
def check_gpu_id_step (available_gpus : Int) (st : Bool × Machine) (id : Nat) :
    Bool × Machine :=
  if id ≥ to_uint available_gpus then
    (false, fprintf st.2 "Requesting unavailable GPU ID %d.\n" [.num id])
  else
    st

/-- Source: `check_gpu_id_list(n_gpu, p_gpu)`.  The loop reads `p_gpu[0]` to
`p_gpu[n_gpu-1]`; the caller provides at least `n_gpu` entries. -/
def check_gpu_id_list (m : Machine) (err : cudaError_t) (devices : Int)
    (n_gpu : Int) (p_gpu : List Nat) : Outcome Bool :=
  if n_gpu > 0 then
    match count_devices m err devices with
    | .exit status m1 => .exit status m1
    | .ret available_gpus m1 =>
      if available_gpus > 0 then
        let r := (p_gpu.take n_gpu.toNat).foldl (check_gpu_id_step available_gpus) (true, m1)
        .ret r.1 r.2
      else
        .ret false (fprintf m1 "Not available GPUs on the system.\n" [])
  else
    .ret false (fprintf m "At least 1 GPU must be requested.\n" [])

/-! ## Stream (`gpu.h` lines 126-158) -/

/-- Class `Stream`: the handle `strm`, 0 when empty. -/
structure Stream where
  strm : Nat
  deriving DecidableEq, Repr

/-- Source: `Stream() { strm = 0; }`. -/
def Stream.new : Stream := ⟨0⟩

/-- Source: `Stream::configure`. -/
def Stream.configure (_self : Stream) (m : Machine) (reply : Option Nat) : Outcome Stream :=
  match acquire m .stream .cudaStreamCreateWithFlags reply with
  | (err, strm, m1) =>
    if err ≠ .cudaSuccess then
      let m2 := fprintf m1 "Error CUDA couldn't create stream. " []
      let m3 := fprintf m2 "GPU error: %s.\n" [.errstr err]
      .exit 1 m3
    else
      .ret ⟨strm⟩ m1

/-- Source: `~Stream() { if( strm != 0 ) cudaStreamDestroy(strm); }`. -/
def Stream.destroy (self : Stream) (m : Machine) : Machine :=
  if self.strm ≠ 0 then release m .stream (.cudaStreamDestroy self.strm) self.strm else m

/-! ## GArr (`gpu.h` lines 160-212) -/

/-- Class `GArr<T>`: `ptr` (0 is `NULL`) and `internal_numel` (`none` while the
field is uninitialised). -/
structure GArr where
  ptr : Nat
  internal_numel : Option Nat
  deriving DecidableEq, Repr

/-- Source: `GArr() { ptr = NULL; }`. -/
def GArr.new : GArr := ⟨0, none⟩

/-- Source: `void free() { if( ptr != NULL ) cudaFree(ptr); }`. -/
def GArr.free (self : GArr) (m : Machine) : Machine :=
  if self.ptr ≠ 0 then release m .device (.cudaFree self.ptr) self.ptr else m

/-- Source: `~GArr() { free(); }`. -/
def GArr.destroy (self : GArr) (m : Machine) : Machine := self.free m

/-- Source: `GArr::alloc(numel)`; `sizeof_T` is `sizeof(T)`, the product is a
`size_t`. -/
def GArr.alloc (sizeof_T : Nat) (self : GArr) (m : Machine) (numel : Nat)
    (reply : Option Nat) : Outcome GArr :=
  let m0 := self.free m
  let bytes := (sizeof_T * numel) % 18446744073709551616
  match acquire m0 .device (.cudaMalloc bytes) reply with
  | (err, ptr, m1) =>
    if err ≠ .cudaSuccess then
      let m2 := fprintf m1 "Error allocating CUDA memory [%dx%d bytes]. " [.num sizeof_T, .num numel]
      let m3 := fprintf m2 "GPU error: %s.\n" [.errstr err]
      .exit 1 m3
    else
      .ret ⟨ptr, some numel⟩ m1

/-! ## GHost (`gpu.h` lines 375-405) -/

/-- Class `GHost<T>`: `ptr`, 0 is `NULL`. -/
structure GHost where
  ptr : Nat
  deriving DecidableEq, Repr

/-- Source: `GHost() { ptr = NULL; }`. -/
def GHost.new : GHost := ⟨0⟩

/-- Source: `void free() { if( ptr != NULL ) cudaFreeHost(ptr); }`. -/
def GHost.free (self : GHost) (m : Machine) : Machine :=
  if self.ptr ≠ 0 then release m .host (.cudaFreeHost self.ptr) self.ptr else m

/-- Source: `~GHost() { free(); }`. -/
def GHost.destroy (self : GHost) (m : Machine) : Machine := self.free m

/-- Source: `GHost::alloc(numel)`. -/
def GHost.alloc (sizeof_T : Nat) (self : GHost) (m : Machine) (numel : Nat)
    (reply : Option Nat) : Outcome GHost :=
  let m0 := self.free m
  let bytes := (sizeof_T * numel) % 18446744073709551616
  match acquire m0 .host (.cudaMallocHost bytes) reply with
  | (err, ptr, m1) =>
    if err ≠ .cudaSuccess then
      let m2 := fprintf m1 "Error allocating CUDA-host memory [%dx%d bytes]. " [.num sizeof_T, .num numel]
      let m3 := fprintf m2 "GPU error: %s.\n" [.errstr err]
      .exit 1 m3
    else
      .ret ⟨ptr⟩ m1

/-! ## GTex2D and GTex3D (`gpu.h` lines 225-370)

The channel descriptor `chn_desc` depends only on `T` and is not represented.
`res_desc` is represented by the array it refers to. -/

/-- Class `GTex2D<T>`: handles are 0 / `NULL` when empty, the descriptors are
`none` while uninitialised. -/
structure GTex2D where
  texture : Nat
  surface : Nat
  g_arr : Nat
  res_desc : Option Nat
  tex_desc : Option cudaTextureDesc
  deriving DecidableEq, Repr

/-- Source: `GTex2D() { texture = 0; surface = 0; g_arr = NULL; }`. -/
def GTex2D.new : GTex2D := ⟨0, 0, 0, none, none⟩

/-- Source, lines 266-271: `memset(&tex_desc, 0, ...)`, then `addressMode[0]`,
`addressMode[1]`, `filterMode`, `readMode`, `normalizedCoords` are assigned. -/
def GTex2D.build_tex_desc : cudaTextureDesc :=
  let d0 := cudaTextureDesc.zeroed
  let d1 := { d0 with addressMode := d0.addressMode.set 0 .cudaAddressModeBorder }
  let d2 := { d1 with addressMode := d1.addressMode.set 1 .cudaAddressModeBorder }
  let d3 := { d2 with filterMode := .cudaFilterModeLinear }
  let d4 := { d3 with readMode := .cudaReadModeElementType }
  { d4 with normalizedCoords := 0 }

/-- Source: `GTex2D::alloc(x, y, z)`; the three replies are those of
`cudaMalloc3DArray`, `cudaCreateTextureObject` and `cudaCreateSurfaceObject`. -/
def GTex2D.alloc (self : GTex2D) (m : Machine) (x y z : Nat)
    (r_arr r_tex r_surf : Option Nat) : Outcome GTex2D :=
  match acquire m .array (.cudaMalloc3DArray x y z true) r_arr with
  | (err, g_arr, m1) =>
    if err ≠ .cudaSuccess then
      let m2 := fprintf m1 "Error allocating CUDA 3D array. " []
      let m3 := fprintf m2 "GPU error: %s.\n" [.errstr err]
      .exit 1 m3
    else
      let res_desc := g_arr
      let tex_desc := GTex2D.build_tex_desc
      match acquire m1 .texture (.cudaCreateTextureObject res_desc tex_desc) r_tex with
      | (err, texture, m2) =>
        if err ≠ .cudaSuccess then
          let m3 := fprintf m2 "Error creating CUDA texture object. " []
          let m4 := fprintf m3 "GPU error: %s.\n" [.errstr err]
          .exit 1 m4
        else
          match acquire m2 .surface (.cudaCreateSurfaceObject res_desc) r_surf with
          | (err, surface, m3) =>
            if err ≠ .cudaSuccess then
              let m4 := fprintf m3 "Error creating CUDA surface object. " []
              let m5 := fprintf m4 "GPU error: %s.\n" [.errstr err]
              .exit 1 m5
            else
              .ret { self with texture := texture, surface := surface, g_arr := g_arr,
                               res_desc := some res_desc, tex_desc := some tex_desc } m3

/-- Source: `GTex2D::free`: array, then texture view, then surface view, each
only when its handle is set. -/
def GTex2D.free (self : GTex2D) (m : Machine) : Machine :=
  let m1 := if self.g_arr ≠ 0 then release m .array (.cudaFreeArray self.g_arr) self.g_arr else m
  let m2 := if self.texture ≠ 0 then
      release m1 .texture (.cudaDestroyTextureObject self.texture) self.texture else m1
  if self.surface ≠ 0 then
    release m2 .surface (.cudaDestroySurfaceObject self.surface) self.surface else m2

/-- Source: `~GTex2D() { free(); }`. -/
def GTex2D.destroy (self : GTex2D) (m : Machine) : Machine := self.free m

/-- Class `GTex3D<T>`, same fields as `GTex2D<T>`. -/
structure GTex3D where
  texture : Nat
  surface : Nat
  g_arr : Nat
  res_desc : Option Nat
  tex_desc : Option cudaTextureDesc
  deriving DecidableEq, Repr

/-- Source: `GTex3D() { texture = 0; surface = 0; g_arr = NULL; }`. -/
def GTex3D.new : GTex3D := ⟨0, 0, 0, none, none⟩

/-- Source, lines 340-346: as for `GTex2D`, and `addressMode[2]` is assigned too. -/
def GTex3D.build_tex_desc : cudaTextureDesc :=
  let d0 := cudaTextureDesc.zeroed
  let d1 := { d0 with addressMode := d0.addressMode.set 0 .cudaAddressModeBorder }
  let d2 := { d1 with addressMode := d1.addressMode.set 1 .cudaAddressModeBorder }
  let d3 := { d2 with addressMode := d2.addressMode.set 2 .cudaAddressModeBorder }
  let d4 := { d3 with filterMode := .cudaFilterModeLinear }
  let d5 := { d4 with readMode := .cudaReadModeElementType }
  { d5 with normalizedCoords := 0 }

/-- Source: `GTex3D::alloc(x, y, z)`; the array is not layered. -/
def GTex3D.alloc (self : GTex3D) (m : Machine) (x y z : Nat)
    (r_arr r_tex r_surf : Option Nat) : Outcome GTex3D :=
  match acquire m .array (.cudaMalloc3DArray x y z false) r_arr with
  | (err, g_arr, m1) =>
    if err ≠ .cudaSuccess then
      let m2 := fprintf m1 "Error allocating CUDA 3D array. " []
      let m3 := fprintf m2 "GPU error: %s.\n" [.errstr err]
      .exit 1 m3
    else
      let res_desc := g_arr
      let tex_desc := GTex3D.build_tex_desc
      match acquire m1 .texture (.cudaCreateTextureObject res_desc tex_desc) r_tex with
      | (err, texture, m2) =>
        if err ≠ .cudaSuccess then
          let m3 := fprintf m2 "Error creating CUDA texture object. " []
          let m4 := fprintf m3 "GPU error: %s.\n" [.errstr err]
          .exit 1 m4
        else
          match acquire m2 .surface (.cudaCreateSurfaceObject res_desc) r_surf with
          | (err, surface, m3) =>
            if err ≠ .cudaSuccess then
              let m4 := fprintf m3 "Error creating CUDA surface object. " []
              let m5 := fprintf m4 "GPU error: %s.\n" [.errstr err]
              .exit 1 m5
            else
              .ret { self with texture := texture, surface := surface, g_arr := g_arr,
                               res_desc := some res_desc, tex_desc := some tex_desc } m3

/-- Source: `GTex3D::free`. -/
def GTex3D.free (self : GTex3D) (m : Machine) : Machine :=
  let m1 := if self.g_arr ≠ 0 then release m .array (.cudaFreeArray self.g_arr) self.g_arr else m
  let m2 := if self.texture ≠ 0 then
      release m1 .texture (.cudaDestroyTextureObject self.texture) self.texture else m1
  if self.surface ≠ 0 then
    release m2 .surface (.cudaDestroySurfaceObject self.surface) self.surface else m2

/-- Source: `~GTex3D() { free(); }`. -/
def GTex3D.destroy (self : GTex3D) (m : Machine) : Machine := self.free m

/-! ## Specification-side definitions for the block-size refinement -/

/-- Ceiling of the rational quotient `a / b`, as the spec writes `ceil(a / b)`. -/
def spec_ceil (a b : Int) : Int := ⌈(a : ℚ) / (b : ℚ)⌉

/-- Spec: `blockSize3D(z)` is the block with x = warp size,
y = ceil((totalThreadsBudget / z) / warpSize), z = z, the inner division truncating. -/
def spec_blockSize3D (budget warp z : Int) : dim3 :=
  ⟨warp.toNat, (spec_ceil (Int.tdiv budget z) warp).toNat, z.toNat⟩

/-- Spec: `blockSize2D()` is the block with x = warp size,
y = ceil(totalThreadsBudget / warpSize), z = 1. -/
def spec_blockSize2D (budget warp : Int) : dim3 :=
  ⟨warp.toNat, (spec_ceil budget warp).toNat, 1⟩


/-! ## Auxiliary definitions used in the statements -/

/-- The `stderr` record of `fprintf(stderr,"Requesting unavailable GPU ID %d.\n",id)`. -/
def unavailable_msg (id : Nat) : Msg := ⟨"Requesting unavailable GPU ID %d.\n", [.num id]⟩

/-- The ids of a list that are not below the device count `N`, in input order. -/
def out_of_range (N : Int) (ids : List Nat) : List Nat :=
  ids.filter (fun (id : Nat) => decide (N ≤ (id : Int)))

/-- A sequence of `alloc(numel)` calls on one `GArr` instance, each with the reply
of the runtime; the run ends at the first call that exits. -/
def GArr.allocs (sizeof_T : Nat) (self : GArr) (m : Machine) :
    List (Nat × Option Nat) → Outcome GArr
  | [] => .ret self m
  | (numel, reply) :: rest =>
    match GArr.alloc sizeof_T self m numel reply with
    | .exit status m1 => .exit status m1
    | .ret g m1 => GArr.allocs sizeof_T g m1 rest

/-- A sequence of `alloc(numel)` calls on one `GHost` instance. -/
def GHost.allocs (sizeof_T : Nat) (self : GHost) (m : Machine) :
    List (Nat × Option Nat) → Outcome GHost
  | [] => .ret self m
  | (numel, reply) :: rest =>
    match GHost.alloc sizeof_T self m numel reply with
    | .exit status m1 => .exit status m1
    | .ret g m1 => GHost.allocs sizeof_T g m1 rest

/-! ## Arithmetic lemmas -/

theorem wrap_int_eq (v : Int) (h : is_int v) : wrap_int v = v := by
  unfold wrap_int
  unfold is_int at h
  omega

theorem to_uint_eq (v : Int) (h0 : 0 ≤ v) (h1 : v < 4294967296) : to_uint v = v.toNat := by
  unfold to_uint
  congr 1
  omega

theorem to_uint_cast (v : Int) (h0 : 0 ≤ v) (h1 : v < 4294967296) :
    ((to_uint v : Nat) : Int) = v := by
  rw [to_uint_eq v h0 h1]
  exact Int.toNat_of_nonneg h0

theorem of_uint_eq (u : Nat) (h : (u : Int) ≤ 2147483647) : of_uint u = (u : Int) := by
  unfold of_uint wrap_int
  omega

/-- When `num + den` fits in an `int`, the machine result is the exact quotient. -/
theorem div_round_up_exact (a b : Int) (ha : 0 ≤ a) (hb : 0 < b) (h : a + b ≤ 2147483647) :
    div_round_up a b = (a + b - 1) / b := by
  unfold div_round_up
  have h1 : wrap_int (a + b) = a + b := by unfold wrap_int; omega
  have h2 : wrap_int (a + b - 1) = a + b - 1 := by unfold wrap_int; omega
  rw [h1, h2, Int.tdiv_eq_ediv (by omega) (by omega)]
  have h3 : 0 ≤ (a + b - 1) / b := Int.ediv_nonneg (by omega) (by omega)
  have h4 : (a + b - 1) / b ≤ a + b - 1 := Int.ediv_le_self _ (by omega)
  unfold wrap_int
  omega

theorem ediv_round_up_bounds (a b : Int) (hb : 0 < b) :
    a ≤ ((a + b - 1) / b) * b ∧ ((a + b - 1) / b - 1) * b < a := by
  have h1 := Int.ediv_add_emod (a + b - 1) b
  have h2 := Int.emod_nonneg (a + b - 1) (ne_of_gt hb)
  have h3 := Int.emod_lt_of_pos (a + b - 1) hb
  constructor <;> nlinarith

theorem ediv_round_up_least (a b q : Int) (hb : 0 < b) (hq : a ≤ q * b) :
    (a + b - 1) / b ≤ q := by
  have h := (ediv_round_up_bounds a b hb).2
  by_contra hc
  have h5 : q ≤ (a + b - 1) / b - 1 := by omega
  have h6 : q * b ≤ ((a + b - 1) / b - 1) * b := Int.mul_le_mul_of_nonneg_right h5 (le_of_lt hb)
  omega

theorem spec_ceil_eq (a b : Int) (hb : 0 < b) : spec_ceil a b = (a + b - 1) / b := by
  unfold spec_ceil
  rw [Int.ceil_eq_iff]
  obtain ⟨h1, h2⟩ := ediv_round_up_bounds a b hb
  have hbq : (0 : ℚ) < (b : ℚ) := by exact_mod_cast hb
  constructor
  · rw [lt_div_iff₀ hbq]
    exact_mod_cast h2
  · rw [div_le_iff₀ hbq]
    exact_mod_cast h1

theorem div_round_up_pos (a b : Int) (ha : 0 < a) (hb : 0 < b) : 0 < (a + b - 1) / b := by
  have h := (ediv_round_up_bounds a b hb).1
  by_contra hc
  have h5 : (a + b - 1) / b ≤ 0 := by omega
  have h6 : ((a + b - 1) / b) * b ≤ 0 * b := Int.mul_le_mul_of_nonneg_right h5 (le_of_lt hb)
  omega

/-- One axis of `calc_grid_size`: exact cover with less than one block of slack. -/
theorem grid_axis_cover (b : Nat) (X : Int) (hb : 0 < b) (hX : 0 < X)
    (h : X + (b : Int) ≤ 2147483647) :
    X ≤ ((to_uint (div_round_up X (of_uint b)) : Nat) : Int) * (b : Int) ∧
    (((to_uint (div_round_up X (of_uint b)) : Nat) : Int) - 1) * (b : Int) < X := by
  have hb0 : (0 : Int) < (b : Int) := by exact_mod_cast hb
  rw [of_uint_eq b (by omega), div_round_up_exact X b (le_of_lt hX) hb0 h]
  have h3 : 0 < (X + b - 1) / (b : Int) := div_round_up_pos X b hX hb0
  have h4 : (X + b - 1) / (b : Int) ≤ X + b - 1 := Int.ediv_le_self _ (by omega)
  rw [to_uint_cast _ (le_of_lt h3) (by omega)]
  exact ediv_round_up_bounds X b hb0

/-! ## C1 -/

/-- C1, as stated, fails at `a = 2147483647`, `b = 2`: both are `int` values with
`a >= 0` and `b > 0`, the sum `a + b - 1` overflows, `div_round_up` returns
`-1073741824`, and `q * b >= a` does not hold for it. -/
theorem div_round_up_overflow_counterexample :
    is_int 2147483647 ∧ is_int 2 ∧ (0 : Int) ≤ 2147483647 ∧ (0 : Int) < 2 ∧
    div_round_up 2147483647 2 = -1073741824 ∧
    ¬ ((2147483647 : Int) ≤ div_round_up 2147483647 2 * 2) := by
  decide

/-- C1 (amended): for `a >= 0`, `b > 0` whose sum `a + b` fits in an `int`,
`div_round_up a b` is the ceiling of `a / b`: it is the least integer `q` with
`q * b >= a`, and equals the ceiling of the rational quotient. -/
theorem div_round_up_is_ceil (a b : Int) (ha : 0 ≤ a) (hb : 0 < b)
    (hfit : a + b ≤ 2147483647) :
    a ≤ div_round_up a b * b ∧
    (∀ q : Int, a ≤ q * b → div_round_up a b ≤ q) ∧
    div_round_up a b = ⌈(a : ℚ) / (b : ℚ)⌉ := by
  rw [div_round_up_exact a b ha hb hfit]
  refine ⟨(ediv_round_up_bounds a b hb).1, ?_, ?_⟩
  · intro q hq
    exact ediv_round_up_least a b q hb hq
  · exact (spec_ceil_eq a b hb).symm

/-- Instance of `div_round_up_is_ceil` at `a = 1000`, `b = 32`. -/
theorem div_round_up_is_ceil_witness :
    (1000 : Int) ≤ div_round_up 1000 32 * 32 ∧
    (∀ q : Int, (1000 : Int) ≤ q * 32 → div_round_up 1000 32 ≤ q) ∧
    div_round_up 1000 32 = ⌈((1000 : Int) : ℚ) / ((32 : Int) : ℚ)⌉ :=
  div_round_up_is_ceil 1000 32 (by decide) (by decide) (by decide)

/-! ## C2 -/

/-- C2, as stated, fails for block `(3,1,1)` and `X = 2147483647`, `Y = Z = 1`, all
positive: `X + block.x - 1` overflows, the x extent of the grid is `3579139414`,
and `(g.x - 1) * block.x < X` does not hold, neither over the integers nor in
`unsigned` arithmetic modulo `2^32`. -/
theorem calc_grid_size_overflow_counterexample :
    calc_grid_size ⟨3, 1, 1⟩ 2147483647 1 1 = ⟨3579139414, 1, 1⟩ ∧
    ¬ ((((calc_grid_size ⟨3, 1, 1⟩ 2147483647 1 1).x : Int) - 1) * 3 < 2147483647) ∧
    ¬ (((calc_grid_size ⟨3, 1, 1⟩ 2147483647 1 1).x - 1) * 3 % 4294967296 < 2147483647) := by
  decide

/-- C2 (amended): for a block with positive extents and positive `X`, `Y`, `Z`
such that in each axis extent plus block extent fits in an `int`, the grid covers
the extent (`g.dim * block.dim >= extent`) with less than one block of slack
(`(g.dim - 1) * block.dim < extent`); block `(32,8,1)` with `X = 1000`,
`Y = Z = 1` gives grid `(32,1,1)`. -/
theorem calc_grid_size_covers (block : dim3) (X Y Z : Int)
    (hbx : 0 < block.x) (hby : 0 < block.y) (hbz : 0 < block.z)
    (hX : 0 < X) (hY : 0 < Y) (hZ : 0 < Z)
    (hfx : X + (block.x : Int) ≤ 2147483647)
    (hfy : Y + (block.y : Int) ≤ 2147483647)
    (hfz : Z + (block.z : Int) ≤ 2147483647) :
    (X ≤ ((calc_grid_size block X Y Z).x : Int) * block.x ∧
      (((calc_grid_size block X Y Z).x : Int) - 1) * block.x < X) ∧
    (Y ≤ ((calc_grid_size block X Y Z).y : Int) * block.y ∧
      (((calc_grid_size block X Y Z).y : Int) - 1) * block.y < Y) ∧
    (Z ≤ ((calc_grid_size block X Y Z).z : Int) * block.z ∧
      (((calc_grid_size block X Y Z).z : Int) - 1) * block.z < Z) ∧
    calc_grid_size ⟨32, 8, 1⟩ 1000 1 1 = ⟨32, 1, 1⟩ := by
  refine ⟨grid_axis_cover block.x X hbx hX hfx, grid_axis_cover block.y Y hby hY hfy,
    grid_axis_cover block.z Z hbz hZ hfz, by decide⟩

/-- Instance of `calc_grid_size_covers` at block `(32,8,1)`, `X = 1000`, `Y = Z = 1`. -/
theorem calc_grid_size_covers_witness :
    ((1000 : Int) ≤ ((calc_grid_size ⟨32, 8, 1⟩ 1000 1 1).x : Int) * (32 : Nat) ∧
      (((calc_grid_size ⟨32, 8, 1⟩ 1000 1 1).x : Int) - 1) * (32 : Nat) < 1000) ∧
    ((1 : Int) ≤ ((calc_grid_size ⟨32, 8, 1⟩ 1000 1 1).y : Int) * (8 : Nat) ∧
      (((calc_grid_size ⟨32, 8, 1⟩ 1000 1 1).y : Int) - 1) * (8 : Nat) < 1) ∧
    ((1 : Int) ≤ ((calc_grid_size ⟨32, 8, 1⟩ 1000 1 1).z : Int) * (1 : Nat) ∧
      (((calc_grid_size ⟨32, 8, 1⟩ 1000 1 1).z : Int) - 1) * (1 : Nat) < 1) ∧
    calc_grid_size ⟨32, 8, 1⟩ 1000 1 1 = ⟨32, 1, 1⟩ :=
  calc_grid_size_covers ⟨32, 8, 1⟩ 1000 1 1 (by decide) (by decide) (by decide)
    (by decide) (by decide) (by decide) (by decide) (by decide) (by decide)

/-! ## C9 -/

theorem tdiv_den_eq (th z : Int) (hth : 0 ≤ th) (hz : 0 < z) (hi : th ≤ 2147483647) :
    wrap_int (Int.tdiv th z) = th / z ∧ 0 ≤ th / z ∧ th / z ≤ th := by
  rw [Int.tdiv_eq_ediv hth (le_of_lt hz)]
  have h3 : 0 ≤ th / z := Int.ediv_nonneg hth (le_of_lt hz)
  have h4 : th / z ≤ th := Int.ediv_le_self _ hth
  refine ⟨?_, h3, h4⟩
  unfold wrap_int
  omega

theorem spec_ceil_nonneg_bound (a b : Int) (ha : 0 ≤ a) (hb : 0 < b) :
    0 ≤ (a + b - 1) / b ∧ (a + b - 1) / b ≤ a + b - 1 :=
  ⟨Int.ediv_nonneg (by omega) (by omega), Int.ediv_le_self _ (by omega)⟩

/-- The block built from `den = th / z`, when nothing overflows. -/
theorem calc_block_size_exact (th ws z : Int) (hth : 0 < th) (hws : 0 < ws) (hz : 0 < z)
    (hzi : z ≤ 2147483647) (hthi : th ≤ 2147483647) (hfit : th / z + ws ≤ 2147483647) :
    calc_block_size th ws z = ⟨ws.toNat, ((th / z + ws - 1) / ws).toNat, z.toNat⟩ := by
  obtain ⟨h1, h2, h3⟩ := tdiv_den_eq th z (le_of_lt hth) hz hthi
  obtain ⟨h4, h5⟩ := spec_ceil_nonneg_bound (th / z) ws h2 hws
  unfold calc_block_size dim3.of_ints
  simp only [h1]
  rw [div_round_up_exact (th / z) ws h2 hws hfit, to_uint_eq ws (by omega) (by omega),
    to_uint_eq _ h4 (by omega), to_uint_eq z (by omega) (by omega)]

/-- C9, as stated, fails for the positive constants budget `2147483647` and warp
`2` at `z = 1`: the y extent computed by the code is `3221225472`, the one of the
spec is `ceil(2147483647 / 2) = 1073741824`; the same for the 2D block. -/
theorem block_size_overflow_counterexample :
    calc_block_size 2147483647 2 1 = ⟨2, 3221225472, 1⟩ ∧
    get_block_size_2D 2147483647 2 = ⟨2, 3221225472, 1⟩ ∧
    spec_blockSize3D 2147483647 2 1 = ⟨2, 1073741824, 1⟩ ∧
    spec_blockSize2D 2147483647 2 = ⟨2, 1073741824, 1⟩ ∧
    calc_block_size 2147483647 2 1 ≠ spec_blockSize3D 2147483647 2 1 ∧
    get_block_size_2D 2147483647 2 ≠ spec_blockSize2D 2147483647 2 := by
  have e3 : spec_blockSize3D 2147483647 2 1 = ⟨2, 1073741824, 1⟩ := by
    unfold spec_blockSize3D
    rw [spec_ceil_eq _ _ (by decide)]
    decide
  have e2 : spec_blockSize2D 2147483647 2 = ⟨2, 1073741824, 1⟩ := by
    unfold spec_blockSize2D
    rw [spec_ceil_eq _ _ (by decide)]
    decide
  refine ⟨by decide, by decide, e3, e2, ?_, ?_⟩
  · rw [e3]
    decide
  · rw [e2]
    decide

/-- C9 (amended): for positive warp and budget constants whose sum fits in an
`int` and every `int` `z > 0`, `get_block_size_3D z` is `calc_block_size` at the
constants and equals the spec block `(warp, ceil((budget / z) / warp), z)` with
`budget / z` truncating; `get_block_size_2D` is `calc_block_size` at the
constants and `z = 1`, and equals `(warp, ceil(budget / warp), 1)`. -/
theorem block_size_refines_spec (SUSAN_CUDA_THREADS SUSAN_CUDA_WARP z : Int)
    (hT : 0 < SUSAN_CUDA_THREADS) (hW : 0 < SUSAN_CUDA_WARP) (hz : 0 < z)
    (hzi : z ≤ 2147483647)
    (hfit : SUSAN_CUDA_THREADS + SUSAN_CUDA_WARP ≤ 2147483647) :
    get_block_size_3D SUSAN_CUDA_THREADS SUSAN_CUDA_WARP z
      = calc_block_size SUSAN_CUDA_THREADS SUSAN_CUDA_WARP z ∧
    calc_block_size SUSAN_CUDA_THREADS SUSAN_CUDA_WARP z
      = spec_blockSize3D SUSAN_CUDA_THREADS SUSAN_CUDA_WARP z ∧
    get_block_size_2D SUSAN_CUDA_THREADS SUSAN_CUDA_WARP
      = calc_block_size SUSAN_CUDA_THREADS SUSAN_CUDA_WARP 1 ∧
    calc_block_size SUSAN_CUDA_THREADS SUSAN_CUDA_WARP 1
      = spec_blockSize2D SUSAN_CUDA_THREADS SUSAN_CUDA_WARP := by
  obtain ⟨h1, h2, h3⟩ := tdiv_den_eq SUSAN_CUDA_THREADS z (le_of_lt hT) hz (by omega)
  refine ⟨rfl, ?_, ?_, ?_⟩
  · rw [calc_block_size_exact _ _ z hT hW hz hzi (by omega) (by omega)]
    unfold spec_blockSize3D
    rw [Int.tdiv_eq_ediv (le_of_lt hT) (le_of_lt hz), spec_ceil_eq _ _ hW]
  · unfold get_block_size_2D calc_block_size
    have e : wrap_int (Int.tdiv SUSAN_CUDA_THREADS 1) = SUSAN_CUDA_THREADS := by
      rw [Int.tdiv_one]
      unfold wrap_int
      omega
    simp only [e]
  · rw [calc_block_size_exact _ _ 1 hT hW (by decide) (by decide) (by omega)
      (by rw [Int.ediv_one]; omega)]
    unfold spec_blockSize2D
    rw [Int.ediv_one, spec_ceil_eq _ _ hW]
    rfl

/-- Instance of `block_size_refines_spec` at budget `1024`, warp `32`, `z = 4`. -/
theorem block_size_refines_spec_witness :
    get_block_size_3D 1024 32 4 = calc_block_size 1024 32 4 ∧
    calc_block_size 1024 32 4 = spec_blockSize3D 1024 32 4 ∧
    get_block_size_2D 1024 32 = calc_block_size 1024 32 1 ∧
    calc_block_size 1024 32 1 = spec_blockSize2D 1024 32 :=
  block_size_refines_spec 1024 32 4 (by decide) (by decide) (by decide) (by decide) (by decide)

/-! ## C10 -/

/-- C10, as stated, fails at `th = ws = 1610612736`, `z = 1` (positive, `z` divides
`th`, `ws` divides `th / z`): `den + ws - 1` overflows, the block is
`(1610612736, 0, 1)` and the product of its extents is `0`. -/
theorem calc_block_size_budget_counterexample :
    (0 : Int) < 1610612736 ∧ (1 : Int) ∣ 1610612736 ∧
    (1610612736 : Int) ∣ 1610612736 / 1 ∧
    calc_block_size 1610612736 1610612736 1 = ⟨1610612736, 0, 1⟩ ∧
    (((calc_block_size 1610612736 1610612736 1).x * (calc_block_size 1610612736 1610612736 1).y
      * (calc_block_size 1610612736 1610612736 1).z : Nat) : Int) ≠ 1610612736 := by
  refine ⟨by decide, by decide, by decide, by decide, by decide⟩

/-- C10 (amended): for positive `int` values `th`, `ws`, `z` such that `z` divides
`th`, `ws` divides `th / z`, and `th / z + ws` fits in an `int`, the block
`calc_block_size th ws z` uses exactly the thread budget: `b.x * b.y * b.z = th`. -/
theorem calc_block_size_uses_budget (th ws z : Int)
    (hth : 0 < th) (hws : 0 < ws) (hz : 0 < z) (hthi : th ≤ 2147483647)
    (hdz : z ∣ th) (hdw : ws ∣ th / z) (hfit : th / z + ws ≤ 2147483647) :
    (((calc_block_size th ws z).x * (calc_block_size th ws z).y
      * (calc_block_size th ws z).z : Nat) : Int) = th := by
  have hzle : z ≤ th := Int.le_of_dvd hth hdz
  rw [calc_block_size_exact th ws z hth hws hz (by omega) hthi hfit]
  obtain ⟨k, hk⟩ := hdw
  have hq : (th / z + ws - 1) / ws = k := by
    rw [hk]
    have e : ws * k + ws - 1 = (ws - 1) + ws * k := by ring
    rw [e, Int.add_mul_ediv_left _ _ (ne_of_gt hws), Int.ediv_eq_zero_of_lt (by omega) (by omega)]
    omega
  have hk0 : 0 ≤ k := by
    have h2 : 0 ≤ th / z := Int.ediv_nonneg (le_of_lt hth) (le_of_lt hz)
    rw [hk] at h2
    by_contra hc
    have : ws * k < 0 := Int.mul_neg_of_pos_of_neg hws (by omega)
    omega
  rw [hq]
  push_cast
  rw [Int.toNat_of_nonneg (le_of_lt hws), Int.toNat_of_nonneg hk0, Int.toNat_of_nonneg (le_of_lt hz),
    ← hk, Int.ediv_mul_cancel hdz]

/-- Instance of `calc_block_size_uses_budget` at `th = 1024`, `ws = 32`, `z = 4`. -/
theorem calc_block_size_uses_budget_witness :
    (((calc_block_size 1024 32 4).x * (calc_block_size 1024 32 4).y
      * (calc_block_size 1024 32 4).z : Nat) : Int) = 1024 :=
  calc_block_size_uses_budget 1024 32 4 (by decide) (by decide) (by decide) (by decide)
    (by decide) (by decide) (by decide)

/-! ## Device validation: C3, C4, C5 -/

theorem to_uint_le_iff (N : Int) (id : Nat) (h0 : 0 < N) (h1 : N ≤ 2147483647) :
    id ≥ to_uint N ↔ N ≤ (id : Int) := by
  rw [to_uint_eq N (le_of_lt h0) (by omega)]
  omega

/-- The loop of `check_gpu_id_list` visits every entry: it appends one record per
out-of-range id and clears the flag as soon as there is one. -/
theorem check_loop_eq (N : Int) (h0 : 0 < N) (h1 : N ≤ 2147483647) (ids : List Nat) :
    ∀ (b : Bool) (m : Machine),
      ids.foldl (check_gpu_id_step N) (b, m) =
        (b && (out_of_range N ids).isEmpty,
          { m with stderr := m.stderr ++ (out_of_range N ids).map unavailable_msg }) := by
  induction ids with
  | nil =>
    intro b m
    simp [out_of_range]
  | cons id rest ih =>
    intro b m
    rw [List.foldl_cons]
    by_cases hid : N ≤ (id : Int)
    · have hstep : check_gpu_id_step N (b, m) id
          = (false, fprintf m "Requesting unavailable GPU ID %d.\n" [.num id]) := by
        unfold check_gpu_id_step
        rw [if_pos ((to_uint_le_iff N id h0 h1).mpr hid)]
      rw [hstep, ih]
      simp [out_of_range, hid, fprintf, unavailable_msg]
    · have hstep : check_gpu_id_step N (b, m) id = (b, m) := by
        unfold check_gpu_id_step
        rw [if_neg (fun h => hid ((to_uint_le_iff N id h0 h1).mp h))]
      rw [hstep, ih]
      simp [out_of_range, hid]

theorem check_gpu_id_list_eq (m : Machine) (N : Int) (ids : List Nat)
    (hne : ids ≠ []) (h0 : 0 < N) (h1 : N ≤ 2147483647) :
    check_gpu_id_list m .cudaSuccess N (ids.length : Int) ids =
      .ret (out_of_range N ids).isEmpty
        { m with stderr := m.stderr ++ (out_of_range N ids).map unavailable_msg } := by
  have hlen : (0 : Int) < (ids.length : Int) := by
    have := List.length_pos.mpr hne
    exact_mod_cast this
  unfold check_gpu_id_list count_devices
  simp only [gt_iff_lt, hlen, if_true, ne_eq, not_true_eq_false, if_false, h0,
    Int.toNat_ofNat, List.take_length]
  rw [check_loop_eq N h0 h1 ids]
  simp

theorem check_gpu_id_list_no_device (m : Machine) (N : Int) (n_gpu : Int) (p_gpu : List Nat)
    (hn : 0 < n_gpu) (h0 : N ≤ 0) :
    check_gpu_id_list m .cudaSuccess N n_gpu p_gpu =
      .ret false (fprintf m "Not available GPUs on the system.\n" []) := by
  unfold check_gpu_id_list count_devices
  have h : ¬ (N > 0) := by omega
  simp [hn, h]

theorem check_gpu_id_list_none_requested (m : Machine) (err : cudaError_t) (N : Int)
    (n_gpu : Int) (p_gpu : List Nat) (hn : n_gpu ≤ 0) :
    check_gpu_id_list m err N n_gpu p_gpu =
      .ret false (fprintf m "At least 1 GPU must be requested.\n" []) := by
  unfold check_gpu_id_list
  have h : ¬ (n_gpu > 0) := by omega
  simp [h]

theorem out_of_range_isEmpty_false_iff (N : Int) (ids : List Nat) :
    (out_of_range N ids).isEmpty = false ↔ ∃ id ∈ ids, N ≤ (id : Int) := by
  unfold out_of_range
  rw [Bool.eq_false_iff, ne_eq, List.isEmpty_iff, List.filter_eq_nil_iff]
  simp

/-- C3, as stated, fails for the empty list with device count `1`: the function
returns `false` although no id of the list is `>= 1`. -/
theorem check_gpu_id_list_empty_counterexample :
    check_gpu_id_list ⟨[], [], []⟩ .cudaSuccess 1 (([] : List Nat).length : Int) []
      = .ret false ⟨[], [], [⟨"At least 1 GPU must be requested.\n", []⟩]⟩ ∧
    ¬ (∃ id ∈ ([] : List Nat), (1 : Int) ≤ (id : Int)) := by
  constructor
  · decide
  · simp

/-- C3 (amended): for every non-empty id list `ids` and every device count `N` (an
`int`) reported by the platform, `check_gpu_id_list` returns, and it returns `false`
if and only if at least one id in `ids` is `>= N`. -/
theorem check_gpu_id_list_false_iff (m : Machine) (N : Int) (ids : List Nat)
    (hne : ids ≠ []) (hN : is_int N) :
    ∃ (b : Bool) (m1 : Machine),
      check_gpu_id_list m .cudaSuccess N (ids.length : Int) ids = .ret b m1 ∧
      (b = false ↔ ∃ id ∈ ids, N ≤ (id : Int)) := by
  have hlen : (0 : Int) < (ids.length : Int) := by
    have := List.length_pos.mpr hne
    exact_mod_cast this
  by_cases h0 : 0 < N
  · refine ⟨_, _, check_gpu_id_list_eq m N ids hne h0 hN.2, ?_⟩
    exact out_of_range_isEmpty_false_iff N ids
  · refine ⟨false, _, check_gpu_id_list_no_device m N _ ids hlen (by omega), ?_⟩
    constructor
    · intro _
      obtain ⟨a, t, rfl⟩ := List.exists_cons_of_ne_nil hne
      exact ⟨a, by simp, by omega⟩
    · intro _
      rfl

/-- Instance of `check_gpu_id_list_false_iff` at `N = 2`, ids `[0,5,1,9]`. -/
theorem check_gpu_id_list_false_iff_witness :
    ∃ (b : Bool) (m1 : Machine),
      check_gpu_id_list ⟨[], [], []⟩ .cudaSuccess 2 (([0, 5, 1, 9] : List Nat).length : Int)
        [0, 5, 1, 9] = .ret b m1 ∧
      (b = false ↔ ∃ id ∈ ([0, 5, 1, 9] : List Nat), (2 : Int) ≤ (id : Int)) :=
  check_gpu_id_list_false_iff ⟨[], [], []⟩ 2 [0, 5, 1, 9] (by decide) (by decide)

/-- C4: `check_gpu_id_list` returns `false` whenever no id is requested
(`n_gpu <= 0`, whatever the platform would report), whenever the platform reports
zero devices (whatever the list), and whenever some id in the list is `>=` the
device count. -/
theorem check_gpu_id_list_rejects (m : Machine) :
    (∀ (err : cudaError_t) (N n_gpu : Int) (p_gpu : List Nat), n_gpu ≤ 0 →
      (check_gpu_id_list m err N n_gpu p_gpu).value = some false) ∧
    (∀ (n_gpu : Int) (p_gpu : List Nat),
      (check_gpu_id_list m .cudaSuccess 0 n_gpu p_gpu).value = some false) ∧
    (∀ (N : Int) (ids : List Nat), is_int N → (∃ id ∈ ids, N ≤ (id : Int)) →
      (check_gpu_id_list m .cudaSuccess N (ids.length : Int) ids).value = some false) := by
  refine ⟨?_, ?_, ?_⟩
  · intro err N n_gpu p_gpu hn
    rw [check_gpu_id_list_none_requested m err N n_gpu p_gpu hn]
    rfl
  · intro n_gpu p_gpu
    by_cases hn : 0 < n_gpu
    · rw [check_gpu_id_list_no_device m 0 n_gpu p_gpu hn (le_refl 0)]
      rfl
    · rw [check_gpu_id_list_none_requested m _ 0 n_gpu p_gpu (by omega)]
      rfl
  · intro N ids hN hex
    have hne : ids ≠ [] := by
      rintro rfl
      simp at hex
    have hlen : (0 : Int) < (ids.length : Int) := by
      have := List.length_pos.mpr hne
      exact_mod_cast this
    by_cases h0 : 0 < N
    · rw [check_gpu_id_list_eq m N ids hne h0 hN.2,
        (out_of_range_isEmpty_false_iff N ids).mpr hex]
      rfl
    · rw [check_gpu_id_list_no_device m N _ ids hlen (by omega)]
      rfl

/-- Instances of the three parts of `check_gpu_id_list_rejects`. -/
theorem check_gpu_id_list_rejects_witness :
    (check_gpu_id_list ⟨[], [], []⟩ .cudaSuccess 4 0 []).value = some false ∧
    (check_gpu_id_list ⟨[], [], []⟩ .cudaSuccess 0 1 [0]).value = some false ∧
    (check_gpu_id_list ⟨[], [], []⟩ .cudaSuccess 2 (([0, 5] : List Nat).length : Int)
      [0, 5]).value = some false :=
  ⟨(check_gpu_id_list_rejects ⟨[], [], []⟩).1 .cudaSuccess 4 0 [] (by decide),
   (check_gpu_id_list_rejects ⟨[], [], []⟩).2.1 1 [0],
   (check_gpu_id_list_rejects ⟨[], [], []⟩).2.2 2 [0, 5] (by decide)
     ⟨5, by decide, by decide⟩⟩

/-- C8: destroying a default-constructed `GArr`, `GHost`, `GTex2D`, `GTex3D` or
`Stream` leaves the platform state as it was: the set of live resources, the
trace of runtime calls (so no release call is issued) and `stderr` are unchanged. -/
theorem destroy_fresh_instance_is_noop (m : Machine) :
    GArr.destroy GArr.new m = m ∧
    GHost.destroy GHost.new m = m ∧
    GTex2D.destroy GTex2D.new m = m ∧
    GTex3D.destroy GTex3D.new m = m ∧
    Stream.destroy Stream.new m = m ∧
    (GArr.destroy GArr.new m).calls = m.calls ∧
    (GHost.destroy GHost.new m).calls = m.calls ∧
    (GTex2D.destroy GTex2D.new m).calls = m.calls ∧
    (GTex3D.destroy GTex3D.new m).calls = m.calls ∧
    (Stream.destroy Stream.new m).calls = m.calls := by
  refine ⟨rfl, rfl, rfl, rfl, rfl, rfl, rfl, rfl, rfl, rfl⟩

end GPU

